import Mathlib

/-!
Verification of the resilient query-and-report pipeline of
`hadoop-unsw-nb15-analytics` against its specification.

The definitions below are a shallow embedding of the two Python source
files `src/python/hive_connection.py` and `src/python/visualizations.py`.
External effects (the Hive engine, `time.sleep`, the plotting back ends,
the numpy random generator) are modelled as explicit inputs or counters;
the control flow of each embedded function follows the source line by
line.
-/

/-! ## Connection retry loop (`HiveConnectionManager.connect`, lines 41-82)

One iteration of the `for attempt in range(max_retries)` loop can end in
three ways:
* the connection is established, `SELECT 1` round-trips and `fetchone`
  returns a truthy row, so the function returns `True` (`success`);
* no exception is raised but the fetched row is falsy, so the `if result`
  guard fails and the loop silently moves to the next iteration (`falsy`);
* some step raises, the `except` branch runs, and the loop either sleeps
  `retry_delay` seconds and retries (when `attempt < max_retries - 1`) or
  returns `False` (`raises`).
-/

/-- Outcome of one connection attempt, as seen by lines 53-77 of
`hive_connection.py`. -/
inductive AttemptOutcome
  | success
  | falsy
  | raises
deriving DecidableEq, Repr

/-- Observable trace of one call to `connect`: the returned boolean, how
many attempts were made (how many loop iterations consulted the
connection source) and how many `time.sleep(retry_delay)` waits ran. -/
structure ConnectTrace where
  ok : Bool
  attempts : Nat
  sleeps : Nat
deriving DecidableEq, Repr

/-- The loop body of `connect` over the remaining attempt indices
(`List.range maxRetries` when called from `connect`), threading the
attempt and sleep counters.  Mirrors lines 52-82: `success` returns
`True` at line 71; `falsy` falls through the `if result` guard and
continues the loop; `raises` sleeps and continues when
`attempt < max_retries - 1` (line 75-77) and returns `False` otherwise
(line 80); an exhausted loop returns `False` (line 82). -/
def connectGo (source : Nat → AttemptOutcome) (maxRetries : Nat) :
    List Nat → Nat → Nat → ConnectTrace
  | [], att, slp => ⟨false, att, slp⟩
  | a :: rest, att, slp =>
    match source a with
    | .success => ⟨true, att + 1, slp⟩
    | .falsy => connectGo source maxRetries rest (att + 1) slp
    | .raises =>
      if a < maxRetries - 1 then
        connectGo source maxRetries rest (att + 1) (slp + 1)
      else
        ⟨false, att + 1, slp⟩

/-- `HiveConnectionManager.connect(max_retries)`: run the retry loop over
`range(max_retries)` with both counters at zero. -/
def connect (source : Nat → AttemptOutcome) (maxRetries : Nat) : ConnectTrace :=
  connectGo source maxRetries (List.range maxRetries) 0 0

lemma connectGo_all_raises (source : Nat → AttemptOutcome) (N : Nat)
    (hfail : ∀ i, source i = .raises) :
    ∀ m j att slp, j + m = N → 1 ≤ m →
      connectGo source N (List.range' j m) att slp = ⟨false, att + m, slp + (m - 1)⟩ := by
  intro m
  induction m with
  | zero => intro j att slp _ h; omega
  | succ m ih =>
    intro j att slp hjm _
    rw [List.range'_succ]
    by_cases hj : j < N - 1
    · have hm : 1 ≤ m := by omega
      simp only [connectGo, hfail j, if_pos hj]
      rw [ih (j + 1) (att + 1) (slp + 1) (by omega) hm]
      simp only [ConnectTrace.mk.injEq]
      refine ⟨trivial, by omega, by omega⟩
    · have hm0 : m = 0 := by omega
      subst hm0
      simp [connectGo, hfail j, hj]

lemma connectGo_succ_at_last (source : Nat → AttemptOutcome) (N : Nat) (hN : 1 ≤ N)
    (hfail : ∀ i, i < N - 1 → source i = .raises)
    (hsucc : source (N - 1) = .success) :
    ∀ m j att slp, j + m = N → j ≤ N - 1 →
      connectGo source N (List.range' j m) att slp
        = ⟨true, att + (N - j), slp + (N - 1 - j)⟩ := by
  intro m
  induction m with
  | zero => intro j att slp hjm hj; omega
  | succ m ih =>
    intro j att slp hjm hj
    rw [List.range'_succ]
    by_cases hjlt : j < N - 1
    · simp only [connectGo, hfail j hjlt, if_pos hjlt]
      rw [ih (j + 1) (att + 1) (slp + 1) (by omega) (by omega)]
      simp only [ConnectTrace.mk.injEq]
      refine ⟨trivial, by omega, by omega⟩
    · have hjeq : j = N - 1 := by omega
      subst hjeq
      simp only [connectGo, hsucc]
      simp only [ConnectTrace.mk.injEq]
      refine ⟨trivial, by omega, by omega⟩

lemma connectGo_ok_iff (source : Nat → AttemptOutcome) (N : Nat) :
    ∀ m j att slp, j + m = N →
      ((connectGo source N (List.range' j m) att slp).ok = true
        ↔ ∃ i, j ≤ i ∧ i < N ∧ source i = .success) := by
  intro m
  induction m with
  | zero =>
    intro j att slp hjm
    constructor
    · intro h
      simp [connectGo] at h
    · rintro ⟨i, hji, hiN, _⟩
      omega
  | succ m ih =>
    intro j att slp hjm
    rw [List.range'_succ]
    cases hsj : source j with
    | success =>
      simp only [connectGo, hsj]
      exact ⟨fun _ => ⟨j, le_refl j, by omega, hsj⟩, fun _ => trivial⟩
    | falsy =>
      simp only [connectGo, hsj]
      rw [ih (j + 1) (att + 1) slp (by omega)]
      constructor
      · rintro ⟨i, hji, hiN, hs⟩
        exact ⟨i, by omega, hiN, hs⟩
      · rintro ⟨i, hji, hiN, hs⟩
        refine ⟨i, ?_, hiN, hs⟩
        rcases Nat.eq_or_lt_of_le hji with h | h
        · subst h; rw [hsj] at hs; cases hs
        · omega
    | raises =>
      by_cases hjlt : j < N - 1
      · simp only [connectGo, hsj, if_pos hjlt]
        rw [ih (j + 1) (att + 1) (slp + 1) (by omega)]
        constructor
        · rintro ⟨i, hji, hiN, hs⟩
          exact ⟨i, by omega, hiN, hs⟩
        · rintro ⟨i, hji, hiN, hs⟩
          refine ⟨i, ?_, hiN, hs⟩
          rcases Nat.eq_or_lt_of_le hji with h | h
          · subst h; rw [hsj] at hs; cases hs
          · omega
      · simp only [connectGo, hsj, if_neg hjlt]
        constructor
        · intro h
          cases h
        · rintro ⟨i, hji, hiN, hs⟩
          have : i = j := by omega
          subst this
          rw [hsj] at hs
          cases hs

lemma range_eq_range_zero (n : Nat) : List.range n = List.range' 0 n :=
  List.range_eq_range' n

/-- C2: for every `N ≥ 1`, a connection source that raises on the first
`N - 1` attempts and succeeds (truthy `SELECT 1` round-trip) on the `N`-th
makes `connect(max_retries = N)` return `True` after exactly `N` attempts
and exactly `N - 1` retry-delay waits, one after each failed attempt. -/
theorem connect_fails_then_succeeds (N : Nat) (hN : 1 ≤ N)
    (source : Nat → AttemptOutcome)
    (hfail : ∀ i, i < N - 1 → source i = .raises)
    (hsucc : source (N - 1) = .success) :
    connect source N = ⟨true, N, N - 1⟩ := by
  unfold connect
  rw [range_eq_range_zero]
  rw [connectGo_succ_at_last source N hN hfail hsucc N 0 0 0 (by omega) (by omega)]
  simp

/-- Witness for C2 at `N = 3`: two raising attempts, success on the third,
yielding two retry-delay waits. -/
theorem connect_fails_then_succeeds_witness :
    connect (fun i => if i < 2 then AttemptOutcome.raises else .success) 3
      = ⟨true, 3, 2⟩ :=
  connect_fails_then_succeeds 3 (by decide) _ (fun _ hi => if_pos hi) (by decide)

/-- C3: for every `N ≥ 1`, a connection source that always raises makes
`connect(max_retries = N)` return `False` after exactly `N` attempts with
exactly `N - 1` retry-delay waits — i.e. no wait runs after the final
failed attempt (line 75 guards the sleep with `attempt < max_retries - 1`). -/
theorem connect_always_fails (N : Nat) (hN : 1 ≤ N)
    (source : Nat → AttemptOutcome)
    (hfail : ∀ i, source i = .raises) :
    connect source N = ⟨false, N, N - 1⟩ := by
  unfold connect
  rw [range_eq_range_zero]
  rw [connectGo_all_raises source N hfail N 0 0 0 (by omega) hN]
  simp

/-- Witness for C3 at `N = 2`: both attempts raise, one wait. -/
theorem connect_always_fails_witness :
    connect (fun _ => AttemptOutcome.raises) 2 = ⟨false, 2, 1⟩ :=
  connect_always_fails 2 (by decide) _ (fun _ => rfl)

/-- C4: `connect` returns `True` exactly when some attempt both
establishes a session and passes the `SELECT 1` round-trip validation
with a truthy row (outcome `success`).  In particular an attempt whose
validation fails — the query raises (`raises`) or `fetchone` returns a
falsy row (`falsy`) — is never a successful connect, and the retry loop
continues past it to later attempts. -/
theorem connect_validates_before_success (source : Nat → AttemptOutcome) (N : Nat) :
    (connect source N).ok = true ↔ ∃ i, i < N ∧ source i = .success := by
  unfold connect
  rw [range_eq_range_zero]
  rw [connectGo_ok_iff source N N 0 0 0 (by omega)]
  constructor
  · rintro ⟨i, _, hiN, hs⟩
    exact ⟨i, hiN, hs⟩
  · rintro ⟨i, hiN, hs⟩
    exact ⟨i, Nat.zero_le i, hiN, hs⟩

/-! ## Teardown (`HiveConnectionManager.close_connection`, lines 240-248)

The Python body is
`if self.cursor: self.cursor.close(); if self.connection: self.connection.close()`
with no `try`/`except`: an exception from either `close()` call
propagates to the caller, and a raising cursor close skips the
connection close.  Neither attribute is set to `None` afterwards. -/

/-- What `close()` on an underlying resource does when invoked. -/
inductive ReleaseBehavior
  | ok
  | raises
deriving DecidableEq, Repr

/-- The manager's handle state: `self.cursor` and `self.connection`,
each `None` (never assigned, e.g. `connect` never got that far) or a
live object with the given release behaviour. -/
structure ManagerState where
  cursor : Option ReleaseBehavior
  connection : Option ReleaseBehavior
deriving DecidableEq, Repr

/-- Release steps that actually completed during `close_connection`. -/
inductive CloseEvent
  | closedCursor
  | closedConnection
deriving DecidableEq, Repr

/-- Result of one `close_connection()` call: whether it raised, and the
releases that completed, in order. -/
structure CloseResult where
  raised : Bool
  events : List CloseEvent
deriving DecidableEq, Repr

/-- `HiveConnectionManager.close_connection` (lines 240-248): close the
cursor if set, then the connection if set; an exception propagates
immediately (nothing catches it), so a raising cursor close also skips
the connection close.  The handles themselves are left in place. -/
def close_connection (s : ManagerState) : CloseResult :=
  match s.cursor with
  | some .raises => ⟨true, []⟩
  | some .ok =>
    match s.connection with
    | some .raises => ⟨true, [.closedCursor]⟩
    | some .ok => ⟨false, [.closedCursor, .closedConnection]⟩
    | none => ⟨false, [.closedCursor]⟩
  | none =>
    match s.connection with
    | some .raises => ⟨true, []⟩
    | some .ok => ⟨false, [.closedConnection]⟩
    | none => ⟨false, []⟩

/-- C5 counterexample: on a manager whose cursor's `close()` raises,
`close_connection` raises (the error is not swallowed), refuting
"never raises — release errors are swallowed"; moreover the connection
release is skipped, so teardown is not total. -/
theorem close_connection_raises_cex :
    (close_connection ⟨some .raises, some .ok⟩).raised = true
      ∧ (close_connection ⟨some .raises, some .ok⟩).events = [] := by
  decide

/-- C5 amended: `close_connection` releases the cursor before the
connection and skips unset handles; with neither handle set (a manager
on which `connect` never established anything) it is a no-op that never
raises; but it raises exactly when one of the present releases raises —
release errors propagate instead of being swallowed, and a raising
cursor release skips the connection release.  Since the handles are not
cleared, a repeated call performs the same releases again rather than
being a guarded no-op. -/
theorem close_connection_order_and_errors (s : ManagerState) :
    (close_connection s).events.Sublist [CloseEvent.closedCursor, CloseEvent.closedConnection]
      ∧ ((close_connection s).raised = true
          ↔ s.cursor = some .raises ∨ s.connection = some .raises)
      ∧ (s.cursor = none ∧ s.connection = none → close_connection s = ⟨false, []⟩) := by
  obtain ⟨c, k⟩ := s
  rcases c with _ | c <;> rcases k with _ | k
  · decide
  · cases k <;> decide
  · cases c <;> decide
  · cases c <;> cases k <;> decide

/-! ## Query execution (`HiveConnectionManager.execute_query`, lines 84-125)

The engine's answer to `cursor.execute` + `cursor.description` +
`cursor.fetchall` is a table (column descriptors and row tuples) or an
exception; `execute_query` returns a DataFrame, an empty DataFrame, or
`None`. -/

/-- A cell of a result row. -/
inductive Cell
  | str (s : String)
  | int (n : Int)
  | real (q : Rat)
deriving DecidableEq, Repr

/-- The canonical tabular structure built from a query result:
ordered column names and ordered rows. -/
structure DataFrame where
  columns : List String
  rows : List (List Cell)
deriving DecidableEq, Repr

/-- What the engine does with one query: a table (possibly with zero
rows), or an error raised during execution/fetch. -/
inductive EngineReply
  | table (cols : List String) (rws : List (List Cell))
  | failure (msg : String)
deriving DecidableEq, Repr

/-- `HiveConnectionManager.execute_query` (lines 84-125): `None` without
an active cursor (line 95-97); on an engine error, `None` (line 123-125);
otherwise, with `fetch_results`, a DataFrame when both rows and columns
are non-empty (line 112-115) and the empty `pd.DataFrame()` otherwise
(line 116-118); without `fetch_results`, `None` (line 119-121). -/
def execute_query (hasCursor : Bool) (reply : EngineReply)
    (fetchResults : Bool) : Option DataFrame :=
  if hasCursor = false then none
  else
    match reply with
    | .failure _ => none
    | .table cols rws =>
      if fetchResults then
        if rws ≠ [] ∧ cols ≠ [] then some ⟨cols, rws⟩
        else some ⟨[], []⟩
      else none

/-- C6: a query that executes successfully but yields zero rows returns
the empty DataFrame `some ⟨[], []⟩` — a success value distinct from the
`none` returned when the engine reports an error, so an empty result is
never conflated with a query failure. -/
theorem execute_query_empty_is_not_failure (cols : List String) (msg : String) :
    execute_query true (.table cols []) true = some ⟨[], []⟩
      ∧ execute_query true (.failure msg) true = none
      ∧ some (DataFrame.mk [] []) ≠ (none : Option DataFrame) := by
  refine ⟨?_, rfl, by simp⟩
  simp [execute_query]

/-! ## Attack-rate computation (`create_temporal_analysis_chart`, lines 236-244)

Lines 236-238 compute
`total_by_hour = df.groupby('hour_of_day').size()`,
`attack_by_hour = df[df['label'] == 1].groupby('hour_of_day').size()`,
`attack_percentage = (attack_by_hour / total_by_hour * 100).fillna(0)`.
A pandas groupby-size series has a key exactly when at least one row
carries it; dividing two series aligns their indices over the union,
producing NaN where a key is missing on either side, and `fillna(0)`
turns those NaN entries into 0.  A key missing from both series is
absent from the result altogether. -/

/-- One row of the frame as the temporal chart reads it: the
`hour_of_day` column and the `label` column (1 = attack). -/
structure TemporalRow where
  hour : Nat
  label : Nat
deriving DecidableEq, Repr

/-- `df.groupby('hour_of_day').size()` read at key `h`: the number of
rows with that hour. -/
def totalByHour (rows : List TemporalRow) (h : Nat) : Nat :=
  (rows.filter (fun r => r.hour == h)).length

/-- `df[df['label'] == 1].groupby('hour_of_day').size()` read at key
`h`: the attack rows are filtered first, then grouped by hour. -/
def attackByHour (rows : List TemporalRow) (h : Nat) : Nat :=
  ((rows.filter (fun r => r.label == 1)).filter (fun r => r.hour == h)).length

/-- `attack_percentage = (attack_by_hour / total_by_hour * 100).fillna(0)`
read at key `h`.  `none` encodes a key absent from the result series
(absent from both groupby indices); a key present on only one side
yields NaN under aligned division, which `fillna(0)` maps to 0;
otherwise the value is the real quotient times 100. -/
def attack_percentage (rows : List TemporalRow) (h : Nat) : Option Rat :=
  let t := totalByHour rows h
  let a := attackByHour rows h
  if t = 0 ∧ a = 0 then none
  else if t = 0 ∨ a = 0 then some 0
  else some ((a : Rat) / (t : Rat) * 100)

/-- The attack rows at an hour are among all rows at that hour. -/
lemma attackByHour_le_totalByHour (rows : List TemporalRow) (h : Nat) :
    attackByHour rows h ≤ totalByHour rows h := by
  unfold attackByHour totalByHour
  exact (((rows.filter_sublist (p := fun r => r.label == 1)).filter
    (fun r => r.hour == h))).length_le

/-- C7 counterexample: in the frame holding the single row
`(hour = 1, label = 1)`, the group `hour = 5` has total count zero, yet
its computed rate is not 0 — the group is simply absent from the
`attack_percentage` series, refuting "the computed rate for that group
is 0". -/
theorem attack_percentage_zero_total_cex :
    totalByHour [⟨1, 1⟩] 5 = 0
      ∧ attack_percentage [⟨1, 1⟩] 5 ≠ some 0 := by
  decide

/-- C7 amended: a group with zero total count never enters the rate
computation at all — it is absent from the computed series rather than
reported as 0 — so no division by a zero denominator is ever performed,
and no division error or undefined value arises: every present group
has total count at least 1 and its value is the real quotient, with the
`fillna(0)` guard mapping a group that has rows but no attack rows to
rate 0. -/
theorem attack_percentage_guarded (rows : List TemporalRow) (h : Nat) :
    (totalByHour rows h = 0 → attack_percentage rows h = none)
      ∧ (0 < totalByHour rows h →
          attack_percentage rows h
            = some ((attackByHour rows h : Rat) / (totalByHour rows h : Rat) * 100))
      ∧ (0 < totalByHour rows h → attackByHour rows h = 0 →
          attack_percentage rows h = some 0) := by
  refine ⟨?_, ?_, ?_⟩
  · intro ht
    have ha : attackByHour rows h = 0 :=
      Nat.le_zero.mp (ht ▸ attackByHour_le_totalByHour rows h)
    simp [attack_percentage, ht, ha]
  · intro ht
    by_cases ha : attackByHour rows h = 0
    · simp [attack_percentage, ha, Nat.pos_iff_ne_zero.mp ht]
    · simp [attack_percentage, ha, Nat.pos_iff_ne_zero.mp ht]
  · intro ht ha
    simp [attack_percentage, ha, Nat.pos_iff_ne_zero.mp ht]

/-- Witness for the amended C7 at the concrete frame
`[(hour 2, label 1), (hour 2, label 0), (hour 3, label 0)]`, hour 2:
total 2, attacks 1, rate 50. -/
theorem attack_percentage_guarded_witness :
    attack_percentage [⟨2, 1⟩, ⟨2, 0⟩, ⟨3, 0⟩] 2
      = some ((attackByHour [⟨2, 1⟩, ⟨2, 0⟩, ⟨3, 0⟩] 2 : Rat)
          / (totalByHour [⟨2, 1⟩, ⟨2, 0⟩, ⟨3, 0⟩] 2 : Rat) * 100) :=
  (attack_percentage_guarded [⟨2, 1⟩, ⟨2, 0⟩, ⟨3, 0⟩] 2).2.1 (by decide)

/-! ## Protocol maliciousness rate (`get_protocol_analysis`, lines 199-218)

The catalogue query computes, per protocol group,
`ROUND((SUM(CASE WHEN label = 1 THEN 1 ELSE 0 END) * 100.0) / COUNT(*), 2)`
as `maliciousness_rate`.  `ROUND(x, 2)` is half-up rounding to two
decimal places. -/

/-- Hive `ROUND(x, 2)`: round to two decimal places. -/
def round2 (q : Rat) : Rat := ((round (q * 100) : Int) : Rat) / 100

/-- The `maliciousness_rate` expression of the `get_protocol_analysis`
query, per group: `ROUND(malicious_flows * 100.0 / total_flows, 2)`. -/
def maliciousness_rate (totalFlows maliciousFlows : Nat) : Rat :=
  round2 ((maliciousFlows : Rat) * 100 / (totalFlows : Rat))

/-- The derived rate column over `(proto, total_flows, malicious_flows)`
result rows. -/
def maliciousness_rate_column (rws : List (String × Nat × Nat)) : List Rat :=
  rws.map (fun r => maliciousness_rate r.2.1 r.2.2)

/-- C8: on the rows `[("tcp", 100, 40), ("udp", 50, 45)]` of
`(proto, total, malicious)`, the derived maliciousness-rate column is
`[40.0, 90.0]`. -/
theorem maliciousness_rate_example :
    maliciousness_rate_column [("tcp", 100, 40), ("udp", 50, 45)] = [40, 90] := by
  norm_num [maliciousness_rate_column, maliciousness_rate, round2]

/-! ## Render fan-out (`generate_all_visualizations`, lines 462-500)

The six chart/report calls sit inside one `try` block; `results` is a
dict that gains one `name -> filepath` entry after each call returns.
When any call raises, the single `except` block at lines 498-500 prints
the error and returns the `results` accumulated so far: nothing records
the failure, and none of the calls after the raising one run. -/

/-- A render target as dispatched in one run: its results-dict key and
what its call does (returns an artifact path, or raises). -/
inductive RenderOutcome
  | ok (path : String)
  | raises (msg : String)
deriving DecidableEq, Repr

/-- One entry of the dispatch sequence. -/
structure RenderTarget where
  name : String
  outcome : RenderOutcome
deriving DecidableEq, Repr

/-- `generate_all_visualizations` over the dispatched target sequence:
each successful call appends its `(name, filepath)` entry to `results`;
the first raising call ends the run, and the `except` branch returns the
entries accumulated before it — no failure entry is ever recorded. -/
def generate_all_visualizations (targets : List RenderTarget) : List (String × String) :=
  match targets with
  | [] => []
  | t :: rest =>
    match t.outcome with
    | .ok p => (t.name, p) :: generate_all_visualizations rest
    | .raises _ => []

/-- The concrete four-target run of the claim: the second target raises. -/
def fourTargetRun : List RenderTarget :=
  [⟨"attack_distribution", .ok "attack_distribution_20240101_000000.png"⟩,
   ⟨"protocol_analysis", .raises "RenderError"⟩,
   ⟨"temporal_analysis", .ok "temporal_analysis_20240101_000000.png"⟩,
   ⟨"interactive_dashboard", .ok "interactive_dashboard_20240101_000000.html"⟩]

/-- C1 counterexample: dispatching 4 targets of which exactly the second
raises yields a run record with only the first target's artifact — one
success, not three, and no recorded failure — because the shared
`try`/`except` of lines 474-500 aborts every target after the raising
one. -/
theorem generate_all_visualizations_aborts_cex :
    generate_all_visualizations fourTargetRun
        = [("attack_distribution", "attack_distribution_20240101_000000.png")]
      ∧ (generate_all_visualizations fourTargetRun).length ≠ 3 := by
  decide

/-- C1 amended: a failure raised by one render target is caught at the
run level, so it never propagates to the caller, but it aborts all
remaining targets instead of isolating the failure: when every target
before the raising one succeeds, the run record equals the record of
running only those earlier targets — one entry per earlier target — and
lists no failure at all. -/
theorem generate_all_visualizations_aborts (pre post : List RenderTarget)
    (t : RenderTarget) (msg : String)
    (hpre : ∀ u ∈ pre, ∃ p, u.outcome = .ok p)
    (ht : t.outcome = .raises msg) :
    generate_all_visualizations (pre ++ t :: post) = generate_all_visualizations pre
      ∧ (generate_all_visualizations pre).length = pre.length := by
  induction pre with
  | nil =>
    simp [generate_all_visualizations, ht]
  | cons u rest ih =>
    obtain ⟨p, hp⟩ := hpre u (List.mem_cons_self u rest)
    have hrest : ∀ v ∈ rest, ∃ q, v.outcome = .ok q :=
      fun v hv => hpre v (List.mem_cons_of_mem u hv)
    obtain ⟨h1, h2⟩ := ih hrest
    constructor
    · simp only [List.cons_append, generate_all_visualizations, hp]
      exact congrArg (fun l => (u.name, p) :: l) h1
    · simp only [generate_all_visualizations, hp, List.length_cons, h2]

/-- Witness for the amended C1: in the four-target run above the record
equals that of the one preceding target, with one entry. -/
theorem generate_all_visualizations_aborts_witness :
    generate_all_visualizations fourTargetRun
        = generate_all_visualizations [⟨"attack_distribution",
            .ok "attack_distribution_20240101_000000.png"⟩]
      ∧ (generate_all_visualizations [(⟨"attack_distribution",
            .ok "attack_distribution_20240101_000000.png"⟩ : RenderTarget)]).length = 1 :=
  generate_all_visualizations_aborts
    [⟨"attack_distribution", .ok "attack_distribution_20240101_000000.png"⟩]
    [⟨"temporal_analysis", .ok "temporal_analysis_20240101_000000.png"⟩,
     ⟨"interactive_dashboard", .ok "interactive_dashboard_20240101_000000.html"⟩]
    ⟨"protocol_analysis", .raises "RenderError"⟩ "RenderError"
    (by intro u hu; simp at hu; exact ⟨_, by rw [hu]⟩)
    rfl

/-! ## Data-frame effects of the render targets (`visualizations.py`)

Each `create_*` function receives the run's single DataFrame `df`.  Two
of them assign new columns to it in place:
`create_temporal_analysis_chart` runs
`df['log_dur'] = np.log1p(df['dur'])` at line 249, and
`create_anomaly_detection_viz` runs
`df['anomaly_score'] = z_scores.mean(axis=1)` at line 354.
`generate_all_visualizations` (lines 474-491) passes the same `df`
object to all six calls in order, so a column added by one call is
visible to the later ones.  We model each function's effect on the
frame's column list; the chart output itself is elided. -/

/-- The column-level view of the run's DataFrame. -/
structure VizFrame where
  cols : List String
deriving DecidableEq, Repr

/-- `df[c] = ...` at the column level: adds column `c` when absent
(assigning to an existing column replaces its values but leaves the
column list unchanged). -/
def assign_column (df : VizFrame) (c : String) : VizFrame :=
  if c ∈ df.cols then df else ⟨df.cols ++ [c]⟩

/-- Frame effect of `create_attack_distribution_chart` (lines 124-161):
reads `df` only. -/
def create_attack_distribution_chart_df (df : VizFrame) : VizFrame := df

/-- Frame effect of `create_protocol_analysis_chart` (lines 163-208):
reads `df` only. -/
def create_protocol_analysis_chart_df (df : VizFrame) : VizFrame := df

/-- Frame effect of `create_temporal_analysis_chart` (lines 210-275):
line 249 assigns `df['log_dur']` in place. -/
def create_temporal_analysis_chart_df (df : VizFrame) : VizFrame :=
  assign_column df "log_dur"

/-- Frame effect of `create_interactive_dashboard` (lines 277-342):
reads `df` only. -/
def create_interactive_dashboard_df (df : VizFrame) : VizFrame := df

/-- Frame effect of `create_anomaly_detection_viz` (lines 344-414):
line 354 assigns `df['anomaly_score']` in place. -/
def create_anomaly_detection_viz_df (df : VizFrame) : VizFrame :=
  assign_column df "anomaly_score"

/-- Frame effect of `generate_summary_report` (lines 416-460): reads
`df` only. -/
def generate_summary_report_df (df : VizFrame) : VizFrame := df

/-- The one `df` object threaded through the six calls of
`generate_all_visualizations` (lines 474-491), in source order. -/
def generate_all_visualizations_df (df : VizFrame) : VizFrame :=
  generate_summary_report_df
    (create_anomaly_detection_viz_df
      (create_interactive_dashboard_df
        (create_temporal_analysis_chart_df
          (create_protocol_analysis_chart_df
            (create_attack_distribution_chart_df df)))))

/-- The columns of the frame `_generate_sample_data` builds
(lines 104-120): the ten generated columns plus the two derived ones. -/
def sampleFrameCols : VizFrame :=
  ⟨["attack_cat", "proto", "service", "sbytes", "dbytes", "dur", "spkts",
    "dpkts", "hour_of_day", "label", "total_bytes", "total_pkts"]⟩

/-- C9 counterexample: the temporal render target mutates the tabular
data it consumes — on the sample frame, which has no `log_dur` column,
the frame after `create_temporal_analysis_chart` differs from the frame
before it, refuting "the data passed in is identical before and after
each rendering operation". -/
theorem render_targets_mutate_cex :
    create_temporal_analysis_chart_df sampleFrameCols ≠ sampleFrameCols := by
  decide

/-- C9 amended: the consumed frame is not immutable and is shared
mutable state across render targets: on any frame lacking the `log_dur`
and `anomaly_score` columns, `create_temporal_analysis_chart` changes
the frame it was passed (appending `log_dur` in place), and one run of
`generate_all_visualizations` hands every later target the mutated
frame, ending with both new columns appended. -/
theorem render_targets_mutate (df : VizFrame)
    (h1 : "log_dur" ∉ df.cols) (h2 : "anomaly_score" ∉ df.cols) :
    create_temporal_analysis_chart_df df ≠ df
      ∧ (generate_all_visualizations_df df).cols
          = df.cols ++ ["log_dur", "anomaly_score"] := by
  constructor
  · intro h
    have hc := congrArg VizFrame.cols h
    simp [create_temporal_analysis_chart_df, assign_column, h1] at hc
  · have hmid : "anomaly_score" ∉ df.cols ++ ["log_dur"] := by
      simp [h2]
    simp [generate_all_visualizations_df, generate_summary_report_df,
      create_anomaly_detection_viz_df, create_interactive_dashboard_df,
      create_temporal_analysis_chart_df, create_protocol_analysis_chart_df,
      create_attack_distribution_chart_df, assign_column, h1, hmid]

/-- Witness for the amended C9 at the sample frame. -/
theorem render_targets_mutate_witness :
    create_temporal_analysis_chart_df sampleFrameCols ≠ sampleFrameCols
      ∧ (generate_all_visualizations_df sampleFrameCols).cols
          = sampleFrameCols.cols ++ ["log_dur", "anomaly_score"] :=
  render_targets_mutate sampleFrameCols (by decide) (by decide)

/-! ## Hive load with silent fallback (`load_hive_data` and
`_generate_sample_data`, `visualizations.py` lines 53-122)

`load_hive_data` wraps the connection and `pd.read_sql` in a `try`
block; on any exception — connection failure and query failure alike —
it prints and returns `self._generate_sample_data()`.  The generator
first calls `np.random.seed(42)`, discarding whatever state numpy's
global generator was in, then draws `n_records = 10000` rows and
appends the derived `total_bytes = sbytes + dbytes` and
`total_pkts = spkts + dpkts` columns.  We model numpy's global
generator as an explicit natural-number state; the numeric value of an
individual draw is abstracted by `draw` (the exact distributions are
irrelevant here), while the reseeding, the row count and the derived
columns follow the source. -/

/-- State of numpy's global random generator. -/
abbrev RngState := Nat

/-- `np.random.seed(42)` (line 94): the previous generator state is
discarded and replaced by the seed. -/
def np_random_seed (_rng : RngState) (s : Nat) : RngState := s

/-- One abstract draw from the generator in state `rng`; `idx` numbers
the draws of a run.  Deterministic in `(rng, idx)`, like numpy's
generator. -/
def draw (rng idx : Nat) : Nat := rng * 1000003 + idx

/-- `n_records = 10000` (line 102). -/
def n_records : Nat := 10000

/-- Row `i` of the sample frame: the ten generated cells of the `data`
dict (lines 104-116) in column order `attack_cat, proto, service,
sbytes, dbytes, dur, spkts, dpkts, hour_of_day, label`, then the
derived `total_bytes = sbytes + dbytes` and
`total_pkts = spkts + dpkts` (lines 119-120). -/
def sample_row (rng i : Nat) : List Nat :=
  let base := (List.range 10).map (fun c => draw rng (10 * i + c))
  base ++ [base.getD 3 0 + base.getD 4 0, base.getD 6 0 + base.getD 7 0]

/-- `UNSWVisualizationGenerator._generate_sample_data` (lines 90-122):
reseed the global generator with 42, then build the 10000-row frame. -/
def _generate_sample_data (rng : RngState) : List (List Nat) × RngState :=
  let rng2 := np_random_seed rng 42
  ((List.range n_records).map (fun i => sample_row rng2 i), rng2)

/-- What the Hive side of `load_hive_data` does: returns a frame, or
raises while connecting (`hive.Connection`, line 77), or raises while
executing the query (`pd.read_sql`, line 80). -/
inductive HiveOutcome
  | ok (frame : List (List Nat))
  | connectError (msg : String)
  | queryError (msg : String)
deriving Repr

/-- `UNSWVisualizationGenerator.load_hive_data` (lines 53-88): on
success the queried frame; on any exception, the `except` branch at
lines 85-88 prints and returns `self._generate_sample_data()` — the
return type has no error case, so no failure is surfaced to the
caller. -/
def load_hive_data (outcome : HiveOutcome) (rng : RngState) :
    List (List Nat) × RngState :=
  match outcome with
  | .ok frame => (frame, rng)
  | .connectError _ => _generate_sample_data rng
  | .queryError _ => _generate_sample_data rng

/-- C10: on every loading failure — connection failure and query
failure alike, whatever the generator state — `load_hive_data` returns
no error but the fabricated sample frame, and because of the fixed
`np.random.seed(42)` every fallback call yields the identical
10000-row table. -/
theorem load_hive_data_silent_fallback (e1 e2 : String) (r1 r2 : RngState) :
    (load_hive_data (.connectError e1) r1).1 = (load_hive_data (.queryError e2) r2).1
      ∧ (load_hive_data (.connectError e1) r1).1 = (_generate_sample_data 0).1
      ∧ (load_hive_data (.connectError e1) r1).1.length = 10000 := by
  refine ⟨rfl, rfl, ?_⟩
  simp [load_hive_data, _generate_sample_data, n_records]
